import Mathlib

/-!
Verification of the routing-and-fallback core of the genai-cloud-gateway
repository: a shallow embedding of `src/app/router.py`, `src/app/cost_tracker.py`,
`src/app/models.py` and the pricing defaults of `src/app/config.py`,
together with theorems settling the spec's claims about them.

Modelling conventions:
* Python `float` arithmetic is embedded as exact rational arithmetic (`ℚ`);
  `round(x, 8)` becomes `round8` below.
* The two provider adapters are opaque capabilities (as the spec's §6 treats
  them): a request-fixed oracle `gen : Provider → String → Except String
  ProviderRaw` giving each (provider, model) invocation's outcome.
* The sqlite usage logger is modelled as an append-only list of `UsageRecord`s
  plus an oracle `logFail : Nat → Option String` saying whether the i-th
  `UsageLogger.log` invocation of the run raises (with which message) instead
  of appending; wall-clock timestamps and autoincrement ids are outside the
  model and omitted from the record.
* `uuid.uuid4()` is nondeterministic, so the minted request id is a parameter.
-/

namespace Gateway

/-- The two upstream providers (`Literal["azure", "bedrock"]` in models.py). -/
inductive Provider where
  | azure
  | bedrock
deriving DecidableEq, Repr

/-- `Priority = Literal["low_cost", "low_latency", "high_quality"]` (models.py). -/
inductive Priority where
  | low_cost
  | low_latency
  | high_quality
deriving DecidableEq, Repr

/-- `Task = Literal["chat", "summarise", "extract", "classify", "rewrite", "qa"]`. -/
inductive Task where
  | chat
  | summarise
  | extract
  | classify
  | rewrite
  | qa
deriving DecidableEq, Repr

/-- `GenerateRequest` of models.py (the free-form `metadata` map is omitted:
no modelled code reads it). -/
structure GenerateRequest where
  prompt : String
  task : Task
  priority : Priority
  max_output_tokens : Nat
  temperature : ℚ
  top_p : ℚ
  provider_hint : Option Provider
deriving DecidableEq, Repr

/-- `AzureConfig` of config.py, restricted to the fields the router reads. -/
structure AzureConfig where
  deployment_low_cost : String
  deployment_high_quality : String
  deployment_low_latency : String
deriving DecidableEq, Repr

/-- `BedrockConfig` of config.py, restricted to the fields the router reads. -/
structure BedrockConfig where
  model_low_cost : String
  model_high_quality : String
  model_low_latency : String
deriving DecidableEq, Repr

/-- `AppConfig` of config.py, restricted to the fields the router reads. -/
structure AppConfig where
  hard_timeout_s : ℚ
  enable_request_logging : Bool
  azure_cost_per_1k_input_usd : ℚ
  azure_cost_per_1k_output_usd : ℚ
  bedrock_cost_per_1k_input_usd : ℚ
  bedrock_cost_per_1k_output_usd : ℚ
deriving DecidableEq, Repr

/-- The pricing-relevant defaults of `load_config` in config.py: the values
used when the corresponding environment variables are unset
(`AZURE_COST_PER_1K_INPUT_USD` = "0.00015", `AZURE_COST_PER_1K_OUTPUT_USD` =
"0.00060", `BEDROCK_COST_PER_1K_INPUT_USD` = "0.00025",
`BEDROCK_COST_PER_1K_OUTPUT_USD` = "0.00125", `ENABLE_REQUEST_LOGGING` =
"true", `HARD_TIMEOUT_S` = "20"). -/
def default_app_config : AppConfig where
  hard_timeout_s := 20
  enable_request_logging := true
  azure_cost_per_1k_input_usd := 15 / 100000
  azure_cost_per_1k_output_usd := 60 / 100000
  bedrock_cost_per_1k_input_usd := 25 / 100000
  bedrock_cost_per_1k_output_usd := 125 / 100000

/-- `est_tokens` of cost_tracker.py: `0` for empty text, otherwise
`max(1, int(len(text) / 4))` (Python's `int` truncates the non-negative
quotient, i.e. floor division on the length). -/
def est_tokens (text : String) : Nat :=
  if text.length = 0 then 0 else max 1 (text.length / 4)

/-- `CostEstimate` of cost_tracker.py. -/
structure CostEstimate where
  input_tokens_est : Nat
  output_tokens_est : Nat
  total_tokens_est : Nat
  cost_est_usd : ℚ
deriving DecidableEq, Repr

/-- Python's `round(x, 8)`, embedded over `ℚ`: round `x * 10^8` to an integer
and scale back. -/
def round8 (q : ℚ) : ℚ :=
  (round (q * 100000000) : ℚ) / 100000000

/-- `estimate_cost` of cost_tracker.py. The `provider` argument is carried but,
as in the source, does not enter the computation. -/
def estimate_cost (provider : Provider) (prompt : String) (output_text : String)
    (cost_per_1k_input_usd : ℚ) (cost_per_1k_output_usd : ℚ) : CostEstimate :=
  let _ := provider
  let in_tok := est_tokens prompt
  let out_tok := est_tokens output_text
  let total := in_tok + out_tok
  let cost := ((in_tok : ℚ) / 1000) * cost_per_1k_input_usd
    + ((out_tok : ℚ) / 1000) * cost_per_1k_output_usd
  { input_tokens_est := in_tok
    output_tokens_est := out_tok
    total_tokens_est := total
    cost_est_usd := round8 cost }

/-- Reference definition of the cost estimator, written from the spec's §4.1
words (for the refinement claim C7): token estimate `max(1, floor(chars/4))`
for non-empty text and `0` for empty text; cost
`(input_tokens/1000 × input_unit_price) + (output_tokens/1000 × output_unit_price)`
rounded to 8 decimal places; total is the sum of the token estimates. -/
def spec_estimate_cost (prompt : String) (output_text : String)
    (input_unit_price : ℚ) (output_unit_price : ℚ) : CostEstimate :=
  let spec_tokens : String → Nat := fun t => if t.length = 0 then 0 else max 1 (t.length / 4)
  let in_tok := spec_tokens prompt
  let out_tok := spec_tokens output_text
  { input_tokens_est := in_tok
    output_tokens_est := out_tok
    total_tokens_est := in_tok + out_tok
    cost_est_usd :=
      round8 (((in_tok : ℚ) / 1000) * input_unit_price
        + ((out_tok : ℚ) / 1000) * output_unit_price) }

/-- The priority decision table of `choose_models` (router.py): the
`if priority == "low_cost" / elif "high_quality" / else low_latency` block
that picks the table-order (primary, secondary) pairs before the
provider-hint swap is applied. -/
def route_by_priority (req : GenerateRequest) (azure : AzureConfig)
    (bedrock : BedrockConfig) : (Provider × String) × (Provider × String) :=
  match req.priority with
  | .low_cost => ((.bedrock, bedrock.model_low_cost), (.azure, azure.deployment_low_cost))
  | .high_quality => ((.bedrock, bedrock.model_high_quality), (.azure, azure.deployment_high_quality))
  | .low_latency => ((.azure, azure.deployment_low_latency), (.bedrock, bedrock.model_low_latency))

/-- `choose_models` of router.py: the priority table followed by the
provider-hint swap (`if req.provider_hint == "azure" and primary[0] != "azure":
swap; elif req.provider_hint == "bedrock" and primary[0] != "bedrock": swap`). -/
def choose_models (req : GenerateRequest) (azure : AzureConfig)
    (bedrock : BedrockConfig) : (Provider × String) × (Provider × String) :=
  let primary := (route_by_priority req azure bedrock).1
  let secondary := (route_by_priority req azure bedrock).2
  if req.provider_hint = some .azure ∧ primary.1 ≠ .azure then
    (secondary, primary)
  else if req.provider_hint = some .bedrock ∧ primary.1 ≠ .bedrock then
    (secondary, primary)
  else
    (primary, secondary)

/-- What a provider adapter's `generate` returns when it does not raise
(base.py's `text, latency_ms`; the `raw` payload is dropped by the router). -/
structure ProviderRaw where
  text : String
  latency_ms : Nat
deriving DecidableEq, Repr

/-- `ProviderResponse` of models.py as built by the router (its `raw` field is
always `None` there, and `usage` holds exactly the four estimate fields). -/
structure ProviderResponse where
  provider : Provider
  model : String
  text : String
  latency_ms : Nat
  usage : CostEstimate
deriving DecidableEq, Repr

/-- One row of the `usage_logs` table written by `UsageLogger.log`
(cost_tracker.py); the wall-clock `ts` and autoincrement `id` columns are
outside the model. -/
structure UsageRecord where
  request_id : String
  provider : Provider
  model : String
  task : Task
  priority : Priority
  input_tokens_est : Nat
  output_tokens_est : Nat
  total_tokens_est : Nat
  cost_est_usd : ℚ
  latency_ms : Nat
  success : Bool
  error : Option String
deriving DecidableEq, Repr

/-- The dict returned by `run_generation` (serialized as `GenerateResponse`
of models.py). -/
structure GenerateResponse where
  request_id : String
  chosen_provider : Provider
  chosen_model : String
  text : String
  latency_ms : Nat
  fallback_used : Bool
  attempts : List ProviderResponse
deriving DecidableEq, Repr

/-- The outcome oracle for the provider adapters: for a given request, the
result of invoking `generate` on (provider, model) — `Except.ok` with the
extracted text and latency, or `Except.error` with the exception's message.
All the other `generate` arguments (prompt, system prompt, sampling
parameters, timeout) are fixed per request, so the oracle needs only the two
that vary between the run's calls. -/
abbrev GenOracle : Type := Provider → String → Except String ProviderRaw

/-- The logging-failure oracle: `logFail i = some m` means the i-th
`usage_logger.log` invocation of the run raises with message `m` (appending
nothing), `none` means it appends its row and returns. -/
abbrev LogOracle : Type := Nat → Option String

/-- The success-path `UsageRecord` written at the end of the router's inner
`call` helper (`success=True`, `error=None`). -/
def success_record (request_id : String) (req : GenerateRequest)
    (provider_name : Provider) (model_id : String) (est : CostEstimate)
    (latency_ms : Nat) : UsageRecord :=
  { request_id := request_id
    provider := provider_name
    model := model_id
    task := req.task
    priority := req.priority
    input_tokens_est := est.input_tokens_est
    output_tokens_est := est.output_tokens_est
    total_tokens_est := est.total_tokens_est
    cost_est_usd := est.cost_est_usd
    latency_ms := latency_ms
    success := true
    error := none }

/-- The failure-path `UsageRecord` written in `run_generation`'s except
blocks: input-tokens-only estimate, zero output tokens, zero cost, zero
latency, `success=False`, error message truncated to 500 characters. -/
def failure_record (request_id : String) (req : GenerateRequest)
    (provider_name : Provider) (model_id : String) (e : String) : UsageRecord :=
  { request_id := request_id
    provider := provider_name
    model := model_id
    task := req.task
    priority := req.priority
    input_tokens_est := est_tokens req.prompt
    output_tokens_est := 0
    total_tokens_est := est_tokens req.prompt
    cost_est_usd := 0
    latency_ms := 0
    success := false
    error := some (e.take 500) }

/-- The branch of the router's inner `call` that picks the pricing matching
the invoked provider and runs `estimate_cost` on the request's prompt and the
provider's output text. -/
def call_est (app_cfg : AppConfig) (req : GenerateRequest)
    (provider_name : Provider) (output_text : String) : CostEstimate :=
  match provider_name with
  | .azure => estimate_cost .azure req.prompt output_text
      app_cfg.azure_cost_per_1k_input_usd app_cfg.azure_cost_per_1k_output_usd
  | .bedrock => estimate_cost .bedrock req.prompt output_text
      app_cfg.bedrock_cost_per_1k_input_usd app_cfg.bedrock_cost_per_1k_output_usd

/-- The `ProviderResponse` the router's inner `call` returns on success. -/
def call_response (app_cfg : AppConfig) (req : GenerateRequest)
    (provider_name : Provider) (model_id : String) (result : ProviderRaw) :
    ProviderResponse :=
  { provider := provider_name
    model := model_id
    text := result.text
    latency_ms := result.latency_ms
    usage := call_est app_cfg req provider_name result.text }

/-- The router's inner `call` helper: invoke the provider's `generate`; on
success compute the cost estimate with that provider's pricing, then (when
request logging is enabled) perform the success `usage_logger.log` call —
which, exactly as in the source, happens inside the caller's try scope, so a
raise from it is indistinguishable from a provider failure. State is threaded
explicitly: `idx` counts `usage_logger.log` invocations so far, `recs` is the
appended rows so far. -/
def attempt_call (app_cfg : AppConfig) (req : GenerateRequest) (gen : GenOracle)
    (logFail : LogOracle) (request_id : String) (provider_name : Provider)
    (model_id : String) (idx : Nat) (recs : List UsageRecord) :
    Nat × List UsageRecord × Except String ProviderResponse :=
  match gen provider_name model_id with
  | .error e => (idx, recs, .error e)
  | .ok result =>
    let est := call_est app_cfg req provider_name result.text
    let resp := call_response app_cfg req provider_name model_id result
    if app_cfg.enable_request_logging then
      match logFail idx with
      | some m => (idx + 1, recs, .error m)
      | none => (idx + 1, recs ++ [success_record request_id req provider_name model_id est result.latency_ms], .ok resp)
    else
      (idx, recs, .ok resp)

/-- The failure-logging step of `run_generation`'s except blocks: when request
logging is enabled, perform the `usage_logger.log(..., success=False, ...)`
call, which may itself raise (returned as `some m`, propagating out of the
except block as in the source). -/
def log_failure (app_cfg : AppConfig) (req : GenerateRequest)
    (logFail : LogOracle) (request_id : String) (provider_name : Provider)
    (model_id : String) (e : String) (idx : Nat) (recs : List UsageRecord) :
    Nat × List UsageRecord × Option String :=
  if app_cfg.enable_request_logging then
    match logFail idx with
    | some m => (idx + 1, recs, some m)
    | none => (idx + 1, recs ++ [failure_record request_id req provider_name model_id e], none)
  else
    (idx, recs, none)

/-- `run_generation` of router.py: try the primary selection through
`attempt_call`; on success return the result with `fallback_used=false` and a
one-entry attempts list; on failure log the primary failure, try the
secondary, and either return with `fallback_used=true` (attempts holding only
the secondary's response — the failed primary produced none) or log the
secondary failure and raise
`RuntimeError("Both providers failed. Primary: {e1}; Secondary: {e2}")`.
Returns the appended usage rows together with the returned dict or the raised
message. -/
def run_generation (app_cfg : AppConfig) (azure_cfg : AzureConfig)
    (bedrock_cfg : BedrockConfig) (req : GenerateRequest) (gen : GenOracle)
    (logFail : LogOracle) (request_id : String) :
    List UsageRecord × Except String GenerateResponse :=
  let primary := (choose_models req azure_cfg bedrock_cfg).1
  let secondary := (choose_models req azure_cfg bedrock_cfg).2
  match attempt_call app_cfg req gen logFail request_id primary.1 primary.2 0 [] with
  | (_, recs1, .ok pr) =>
    (recs1, .ok
      { request_id := request_id
        chosen_provider := pr.provider
        chosen_model := pr.model
        text := pr.text
        latency_ms := pr.latency_ms
        fallback_used := false
        attempts := [pr] })
  | (idx1, recs1, .error e1) =>
    match log_failure app_cfg req logFail request_id primary.1 primary.2 e1 idx1 recs1 with
    | (_, recs2, some m) => (recs2, .error m)
    | (idx2, recs2, none) =>
      match attempt_call app_cfg req gen logFail request_id secondary.1 secondary.2 idx2 recs2 with
      | (_, recs3, .ok sr) =>
        (recs3, .ok
          { request_id := request_id
            chosen_provider := sr.provider
            chosen_model := sr.model
            text := sr.text
            latency_ms := sr.latency_ms
            fallback_used := true
            attempts := [sr] })
      | (idx3, recs3, .error e2) =>
        match log_failure app_cfg req logFail request_id secondary.1 secondary.2 e2 idx3 recs3 with
        | (_, recs4, some m) => (recs4, .error m)
        | (_, recs4, none) =>
          (recs4, .error ("Both providers failed. Primary: " ++ e1 ++ "; Secondary: " ++ e2))
/-- Characterization of `run_generation` when the primary invocation succeeds and every `usage_logger.log` call of the run returns normally. -/
lemma run_generation_of_primary_ok
    (app_cfg : AppConfig) (azure_cfg : AzureConfig) (bedrock_cfg : BedrockConfig)
    (req : GenerateRequest) (gen : GenOracle) (logFail : LogOracle)
    (request_id : String) (p s : Provider × String) (r : ProviderRaw)
    (hps : choose_models req azure_cfg bedrock_cfg = (p, s))
    (hp : gen p.1 p.2 = .ok r) (hL : logFail 0 = none) :
    run_generation app_cfg azure_cfg bedrock_cfg req gen logFail request_id =
      ((if app_cfg.enable_request_logging then
          [success_record request_id req p.1 p.2 (call_est app_cfg req p.1 r.text) r.latency_ms]
        else []),
       .ok { request_id := request_id
             chosen_provider := p.1
             chosen_model := p.2
             text := r.text
             latency_ms := r.latency_ms
             fallback_used := false
             attempts := [call_response app_cfg req p.1 p.2 r] }) := by
  cases hE : app_cfg.enable_request_logging <;>
    simp [run_generation, attempt_call, hps, hp, hL, hE, call_response]

/-- Characterization of `run_generation` when the primary invocation fails, the secondary succeeds, and every `usage_logger.log` call returns normally. -/
lemma run_generation_of_fallback_ok
    (app_cfg : AppConfig) (azure_cfg : AzureConfig) (bedrock_cfg : BedrockConfig)
    (req : GenerateRequest) (gen : GenOracle) (logFail : LogOracle)
    (request_id : String) (p s : Provider × String) (e1 : String) (r : ProviderRaw)
    (hps : choose_models req azure_cfg bedrock_cfg = (p, s))
    (hp : gen p.1 p.2 = .error e1) (hs : gen s.1 s.2 = .ok r)
    (hL : ∀ i, logFail i = none) :
    run_generation app_cfg azure_cfg bedrock_cfg req gen logFail request_id =
      ((if app_cfg.enable_request_logging then
          [failure_record request_id req p.1 p.2 e1,
           success_record request_id req s.1 s.2 (call_est app_cfg req s.1 r.text) r.latency_ms]
        else []),
       .ok { request_id := request_id
             chosen_provider := s.1
             chosen_model := s.2
             text := r.text
             latency_ms := r.latency_ms
             fallback_used := true
             attempts := [call_response app_cfg req s.1 s.2 r] }) := by
  cases hE : app_cfg.enable_request_logging <;>
    simp [run_generation, attempt_call, log_failure, hps, hp, hs, hL, hE, call_response]

/-- Characterization of `run_generation` when both invocations fail and every `usage_logger.log` call returns normally. -/
lemma run_generation_of_both_fail
    (app_cfg : AppConfig) (azure_cfg : AzureConfig) (bedrock_cfg : BedrockConfig)
    (req : GenerateRequest) (gen : GenOracle) (logFail : LogOracle)
    (request_id : String) (p s : Provider × String) (e1 e2 : String)
    (hps : choose_models req azure_cfg bedrock_cfg = (p, s))
    (hp : gen p.1 p.2 = .error e1) (hs : gen s.1 s.2 = .error e2)
    (hL : ∀ i, logFail i = none) :
    run_generation app_cfg azure_cfg bedrock_cfg req gen logFail request_id =
      ((if app_cfg.enable_request_logging then
          [failure_record request_id req p.1 p.2 e1,
           failure_record request_id req s.1 s.2 e2]
        else []),
       .error ("Both providers failed. Primary: " ++ e1 ++ "; Secondary: " ++ e2)) := by
  cases hE : app_cfg.enable_request_logging <;>
    simp [run_generation, attempt_call, log_failure, hps, hp, hs, hL, hE]



/-- `est_tokens` is monotone in the text's length. -/
lemma est_tokens_mono {s t : String} (h : s.length ≤ t.length) :
    est_tokens s ≤ est_tokens t := by
  unfold est_tokens
  by_cases hs : s.length = 0
  · simp [hs]
  · have ht : ¬ t.length = 0 := by omega
    simp only [hs, ht, if_false]
    exact max_le_max le_rfl (Nat.div_le_div_right h)

/-- Rounding to 8 decimal places is monotone. -/
lemma round8_mono {q1 q2 : ℚ} (h : q1 ≤ q2) : round8 q1 ≤ round8 q2 := by
  unfold round8
  have hr : round (q1 * 100000000) ≤ round (q2 * 100000000) := by
    rw [round_eq, round_eq]
    exact Int.floor_le_floor (by linarith)
  have hc : ((round (q1 * 100000000) : ℤ) : ℚ) ≤ ((round (q2 * 100000000) : ℤ) : ℚ) := by
    exact_mod_cast hr
  exact div_le_div_of_nonneg_right hc (by norm_num)

/-- C7: `estimate_cost` coincides with the spec's reference definition
(`spec_estimate_cost`): token estimates are `max(1, floor(chars/4))` for
non-empty text and `0` for empty text, the total is their sum, and the USD
cost is the per-1k-priced sum rounded to 8 decimal places; in particular the
empty prompt and output give the all-zero estimate, and a 4000-character
prompt gives an input-token estimate of 1000. -/
theorem estimate_cost_matches_spec :
    (∀ pv prompt out pin pout,
      estimate_cost pv prompt out pin pout = spec_estimate_cost prompt out pin pout)
    ∧ (∀ pv pin pout, estimate_cost pv "" "" pin pout =
        { input_tokens_est := 0, output_tokens_est := 0, total_tokens_est := 0, cost_est_usd := 0 })
    ∧ (∀ pv prompt out pin pout, prompt.length = 4000 →
        (estimate_cost pv prompt out pin pout).input_tokens_est = 1000) := by
  refine ⟨fun pv prompt out pin pout => rfl, fun pv pin pout => ?_, fun pv prompt out pin pout h => ?_⟩
  · have h0 : est_tokens "" = 0 := rfl
    have hr0 : round8 0 = 0 := by simp [round8]
    simp [estimate_cost, h0, hr0]
  · have h1000 : est_tokens prompt = 1000 := by
      unfold est_tokens
      rw [h]
      decide
    simp [estimate_cost, h1000]

/-- A concrete 4000-character prompt (witness input). -/
def prompt4000 : String := String.mk (List.replicate 4000 'a')

/-- Witness for C7: the 4000-character clause evaluated on a concrete
4000-character prompt. -/
theorem estimate_cost_matches_spec_witness :
    prompt4000.length = 4000
    ∧ (estimate_cost .azure prompt4000 "out" (15/100000) (60/100000)).input_tokens_est = 1000 := by
  have h : prompt4000.length = 4000 := by
    show (List.replicate 4000 'a').length = 4000
    rw [List.length_replicate]
  exact ⟨h, estimate_cost_matches_spec.2.2 .azure prompt4000 "out" (15/100000) (60/100000) h⟩

/-- C10: for a fixed prompt and fixed non-negative per-1k unit pricing,
`estimate_cost` is monotone non-decreasing in the output text's length, in
the output-token estimate, the total-token estimate, and the estimated USD
cost. -/
theorem estimate_cost_monotone_in_output (pv : Provider) (prompt out1 out2 : String)
    (pin pout : ℚ) (hpout : 0 ≤ pout) (hlen : out1.length ≤ out2.length) :
    (estimate_cost pv prompt out1 pin pout).output_tokens_est
        ≤ (estimate_cost pv prompt out2 pin pout).output_tokens_est
    ∧ (estimate_cost pv prompt out1 pin pout).total_tokens_est
        ≤ (estimate_cost pv prompt out2 pin pout).total_tokens_est
    ∧ (estimate_cost pv prompt out1 pin pout).cost_est_usd
        ≤ (estimate_cost pv prompt out2 pin pout).cost_est_usd := by
  have hm := est_tokens_mono hlen
  refine ⟨by simpa [estimate_cost] using hm, ?_, ?_⟩
  · simp only [estimate_cost]
    omega
  · simp only [estimate_cost]
    apply round8_mono
    have hq : ((est_tokens out1 : ℚ)) ≤ (est_tokens out2 : ℚ) := by exact_mod_cast hm
    gcongr

/-- Witness for C10 at concrete texts and unit pricing. -/
theorem estimate_cost_monotone_in_output_witness :
    (0:ℚ) ≤ 1 ∧ "ab".length ≤ "abcdef".length
    ∧ (estimate_cost .azure "p" "ab" 1 1).cost_est_usd
        ≤ (estimate_cost .azure "p" "abcdef" 1 1).cost_est_usd :=
  ⟨by norm_num, by decide,
    (estimate_cost_monotone_in_output .azure "p" "ab" "abcdef" 1 1 (by norm_num) (by decide)).2.2⟩


/-- Concrete Azure deployment names (fixture for witnesses and
counterexamples). -/
def az_fix : AzureConfig := { deployment_low_cost := "az-lc", deployment_high_quality := "az-hq", deployment_low_latency := "az-ll" }

/-- Concrete Bedrock model names (fixture). -/
def bd_fix : BedrockConfig := { model_low_cost := "bd-lc", model_high_quality := "bd-hq", model_low_latency := "bd-ll" }

/-- A concrete request: priority `low_cost`, no provider hint (fixture). -/
def req_fix : GenerateRequest := { prompt := "hello", task := .chat, priority := .low_cost, max_output_tokens := 512, temperature := 1/5, top_p := 9/10, provider_hint := none }

/-- C5: evaluation of the code at the claim's failing input. For a
`low_cost` request with no hint, `choose_models` returns bedrock as the
primary provider even though under the default pricing configuration azure's
per-1k unit costs (input and output) are strictly lower — contradicting the
claim (and the router's own routing comment, which says azure's low-cost
deployment goes first). -/
theorem choose_models_low_cost_ignores_cheaper_default :
    (choose_models req_fix az_fix bd_fix).1.1 = Provider.bedrock
    ∧ (choose_models req_fix az_fix bd_fix).2.1 = Provider.azure
    ∧ default_app_config.azure_cost_per_1k_input_usd
        < default_app_config.bedrock_cost_per_1k_input_usd
    ∧ default_app_config.azure_cost_per_1k_output_usd
        < default_app_config.bedrock_cost_per_1k_output_usd := by
  refine ⟨rfl, rfl, ?_, ?_⟩ <;> norm_num [default_app_config]

/-- C8: if `provider_hint` is present and differs from the table-selected
primary's provider, `choose_models` swaps the pair, so the hinted provider
is primary and the non-hinted table primary becomes the secondary; if the
hint is absent or already matches the table primary, the table order is
returned unchanged. -/
theorem choose_models_hint_resolution (req : GenerateRequest) (az : AzureConfig)
    (bd : BedrockConfig) :
    (∀ hv, req.provider_hint = some hv → hv ≠ (route_by_priority req az bd).1.1 →
      choose_models req az bd = ((route_by_priority req az bd).2, (route_by_priority req az bd).1)
      ∧ (choose_models req az bd).1.1 = hv
      ∧ (choose_models req az bd).2.1 = (route_by_priority req az bd).1.1)
    ∧ ((req.provider_hint = none ∨ req.provider_hint = some (route_by_priority req az bd).1.1) →
      choose_models req az bd = route_by_priority req az bd) := by
  obtain ⟨prompt, task, priority, mot, temp, tp, hint⟩ := req
  rcases hint with _ | pv
  · cases priority <;> simp [choose_models, route_by_priority]
  · cases pv <;> cases priority <;> simp [choose_models, route_by_priority]

/-- A `low_latency` request hinting bedrock — the table's secondary
provider (fixture). -/
def req_ll_hint_bd : GenerateRequest := { req_fix with priority := .low_latency, provider_hint := some .bedrock }

/-- Witness for C8: a hint matching the table's secondary provider makes
that provider the returned primary. -/
theorem choose_models_hint_resolution_witness :
    req_ll_hint_bd.provider_hint = some Provider.bedrock
    ∧ Provider.bedrock ≠ (route_by_priority req_ll_hint_bd az_fix bd_fix).1.1
    ∧ (choose_models req_ll_hint_bd az_fix bd_fix).1.1 = Provider.bedrock
    ∧ (choose_models req_ll_hint_bd az_fix bd_fix).2.1
        = (route_by_priority req_ll_hint_bd az_fix bd_fix).1.1 := by
  have h := (choose_models_hint_resolution req_ll_hint_bd az_fix bd_fix).1
    Provider.bedrock rfl (by decide)
  exact ⟨rfl, by decide, h.2.1, h.2.2⟩

/-- C9: for every request — all priorities and any provider-hint value —
`choose_models` returns a primary whose provider differs from the
secondary's provider. -/
theorem choose_models_primary_ne_secondary (req : GenerateRequest) (az : AzureConfig)
    (bd : BedrockConfig) :
    (choose_models req az bd).1.1 ≠ (choose_models req az bd).2.1 := by
  obtain ⟨prompt, task, priority, mot, temp, tp, hint⟩ := req
  rcases hint with _ | pv
  · cases priority <;> simp [choose_models, route_by_priority]
  · cases pv <;> cases priority <;> simp [choose_models, route_by_priority]


/-- Oracle fixture: every provider invocation succeeds with the same text
and latency. -/
def gen_ok_fix : GenOracle := fun _ _ => .ok { text := "out!", latency_ms := 42 }

/-- Oracle fixture: bedrock raises, azure succeeds (for a `low_cost`
request this makes the primary fail and the secondary succeed). -/
def gen_primary_fail_fix : GenOracle := fun p _ =>
  if p = .bedrock then .error "boom-p" else .ok { text := "out2", latency_ms := 7 }

/-- Oracle fixture: both providers raise, with distinct messages. -/
def gen_both_fail_fix : GenOracle := fun p _ =>
  if p = .bedrock then .error "boom-p" else .error "boom-s"

/-- Logging fixture: every `usage_logger.log` call returns normally. -/
def log_ok_fix : LogOracle := fun _ => none

/-- Logging fixture: every `usage_logger.log` call raises. -/
def log_always_fail_fix : LogOracle := fun _ => some "usage sink unavailable"

/-- Logging fixture: only the run's first `usage_logger.log` call raises. -/
def log_first_fail_fix : LogOracle := fun i => if i = 0 then some "usage sink unavailable" else none

/-- The default configuration with request logging switched off
(`ENABLE_REQUEST_LOGGING` set to anything but "true"). -/
def app_no_log_fix : AppConfig := { default_app_config with enable_request_logging := false }

/-- C1: with a working usage sink, `run_generation` raises a terminal error
exactly when both the primary and the secondary provider invocations fail;
that terminal error is the composite message carrying both underlying
failure messages, and in every other case a full result is returned. -/
theorem run_generation_terminal_iff_both_fail
    (app_cfg : AppConfig) (azure_cfg : AzureConfig) (bedrock_cfg : BedrockConfig)
    (req : GenerateRequest) (gen : GenOracle) (logFail : LogOracle)
    (request_id : String) (p s : Provider × String)
    (hps : choose_models req azure_cfg bedrock_cfg = (p, s))
    (hLog : ∀ i, logFail i = none) :
    (∀ e1 e2, gen p.1 p.2 = .error e1 → gen s.1 s.2 = .error e2 →
      (run_generation app_cfg azure_cfg bedrock_cfg req gen logFail request_id).2
        = .error ("Both providers failed. Primary: " ++ e1 ++ "; Secondary: " ++ e2))
    ∧ (∀ m, (run_generation app_cfg azure_cfg bedrock_cfg req gen logFail request_id).2 = .error m →
        ∃ e1 e2, gen p.1 p.2 = .error e1 ∧ gen s.1 s.2 = .error e2)
    ∧ (((∃ r, gen p.1 p.2 = .ok r) ∨ (∃ r, gen s.1 s.2 = .ok r)) →
        ∃ res, (run_generation app_cfg azure_cfg bedrock_cfg req gen logFail request_id).2
          = .ok res) := by
  refine ⟨?_, ?_, ?_⟩
  · intro e1 e2 h1 h2
    simp [run_generation_of_both_fail app_cfg azure_cfg bedrock_cfg req gen logFail
      request_id p s e1 e2 hps h1 h2 hLog]
  · intro m hm
    cases h1 : gen p.1 p.2 with
    | ok r =>
      rw [run_generation_of_primary_ok app_cfg azure_cfg bedrock_cfg req gen logFail
        request_id p s r hps h1 (hLog 0)] at hm
      simp at hm
    | error e1 =>
      cases h2 : gen s.1 s.2 with
      | ok r =>
        rw [run_generation_of_fallback_ok app_cfg azure_cfg bedrock_cfg req gen logFail
          request_id p s e1 r hps h1 h2 hLog] at hm
        simp at hm
      | error e2 => exact ⟨e1, e2, rfl, rfl⟩
  · rintro (⟨r, hr⟩ | ⟨r, hr⟩)
    · rw [run_generation_of_primary_ok app_cfg azure_cfg bedrock_cfg req gen logFail
        request_id p s r hps hr (hLog 0)]
      exact ⟨_, rfl⟩
    · cases h1 : gen p.1 p.2 with
      | ok r0 =>
        rw [run_generation_of_primary_ok app_cfg azure_cfg bedrock_cfg req gen logFail
          request_id p s r0 hps h1 (hLog 0)]
        exact ⟨_, rfl⟩
      | error e1 =>
        rw [run_generation_of_fallback_ok app_cfg azure_cfg bedrock_cfg req gen logFail
          request_id p s e1 r hps h1 hr hLog]
        exact ⟨_, rfl⟩

/-- Witness for C1: both fixtures fail; the run raises the composite
message carrying both. -/
theorem run_generation_terminal_iff_both_fail_witness :
    choose_models req_fix az_fix bd_fix = ((Provider.bedrock, "bd-lc"), (Provider.azure, "az-lc"))
    ∧ (run_generation default_app_config az_fix bd_fix req_fix gen_both_fail_fix log_ok_fix
        "rid-1").2
      = .error ("Both providers failed. Primary: " ++ "boom-p" ++ "; Secondary: " ++ "boom-s") :=
  ⟨rfl,
    (run_generation_terminal_iff_both_fail default_app_config az_fix bd_fix req_fix
      gen_both_fail_fix log_ok_fix "rid-1" (Provider.bedrock, "bd-lc") (Provider.azure, "az-lc")
      rfl (fun _ => rfl)).1 "boom-p" "boom-s" rfl rfl⟩


/-- C3: with a working usage sink, every returned result has
`fallback_used = true` iff the primary invocation failed and the secondary
succeeded; when the primary succeeds the result has `fallback_used = false`
and its attempts list is exactly the primary's single response. -/
theorem run_generation_fallback_iff
    (app_cfg : AppConfig) (azure_cfg : AzureConfig) (bedrock_cfg : BedrockConfig)
    (req : GenerateRequest) (gen : GenOracle) (logFail : LogOracle)
    (request_id : String) (p s : Provider × String)
    (hps : choose_models req azure_cfg bedrock_cfg = (p, s))
    (hLog : ∀ i, logFail i = none) :
    ∀ res, (run_generation app_cfg azure_cfg bedrock_cfg req gen logFail request_id).2
        = .ok res →
      ((res.fallback_used = true ↔
          ((∃ e, gen p.1 p.2 = .error e) ∧ ∃ r, gen s.1 s.2 = .ok r))
       ∧ (∀ r, gen p.1 p.2 = .ok r →
           res.fallback_used = false ∧ res.attempts = [call_response app_cfg req p.1 p.2 r])) := by
  intro res hres
  cases h1 : gen p.1 p.2 with
  | ok r =>
    rw [run_generation_of_primary_ok app_cfg azure_cfg bedrock_cfg req gen logFail
      request_id p s r hps h1 (hLog 0)] at hres
    simp only [Except.ok.injEq] at hres
    subst hres
    refine ⟨?_, ?_⟩
    · simp [h1]
    · intro r' hr'
      simp only [Except.ok.injEq] at hr'
      subst hr'
      exact ⟨rfl, rfl⟩
  | error e1 =>
    cases h2 : gen s.1 s.2 with
    | ok r =>
      rw [run_generation_of_fallback_ok app_cfg azure_cfg bedrock_cfg req gen logFail
        request_id p s e1 r hps h1 h2 hLog] at hres
      simp only [Except.ok.injEq] at hres
      subst hres
      refine ⟨?_, ?_⟩
      · simp
      · intro r' hr'
        exact absurd hr' (by simp)
    | error e2 =>
      rw [run_generation_of_both_fail app_cfg azure_cfg bedrock_cfg req gen logFail
        request_id p s e1 e2 hps h1 h2 hLog] at hres
      exact absurd hres (by simp)

/-- Witness for C3: primary succeeds; the returned result has
`fallback_used = false` and one attempt. -/
theorem run_generation_fallback_iff_witness :
    choose_models req_fix az_fix bd_fix = ((Provider.bedrock, "bd-lc"), (Provider.azure, "az-lc"))
    ∧ ∃ res, (run_generation default_app_config az_fix bd_fix req_fix gen_ok_fix log_ok_fix
        "rid-3").2 = .ok res
      ∧ res.fallback_used = false ∧ res.attempts.length = 1 := by
  refine ⟨rfl, ?_⟩
  have h := run_generation_fallback_iff default_app_config az_fix bd_fix req_fix gen_ok_fix
    log_ok_fix "rid-3" (Provider.bedrock, "bd-lc") (Provider.azure, "az-lc") rfl (fun _ => rfl)
  obtain ⟨res, hres⟩ : ∃ res, (run_generation default_app_config az_fix bd_fix req_fix
      gen_ok_fix log_ok_fix "rid-3").2 = .ok res := ⟨_, rfl⟩
  have h2 := (h res hres).2 { text := "out!", latency_ms := 42 } rfl
  refine ⟨res, hres, h2.1, ?_⟩
  rw [h2.2]
  rfl

/-- Counterexample for C6 as stated: primary fails, secondary is attempted
and succeeds, yet the returned attempts list has length 1, not 2 — the
failed primary produced no `ProviderAttemptResult` (only a failure
`UsageRecord`), exactly as the spec's end-to-end scenario 2 describes. -/
theorem run_generation_fallback_attempts_counterexample :
    ((run_generation default_app_config az_fix bd_fix req_fix gen_primary_fail_fix log_ok_fix
        "rid-6").2.toOption.map (fun res => (res.fallback_used, res.attempts.length)))
      = some (true, 1) := rfl

/-- C6 (amended): with a working usage sink, when the primary fails and the
secondary succeeds the returned attempts list has length 1, holding only the
secondary's response; when the secondary also fails no result (and hence no
attempts list) is returned — the run raises the composite terminal error,
which still carries both failure messages. -/
theorem run_generation_attempts_on_fallback
    (app_cfg : AppConfig) (azure_cfg : AzureConfig) (bedrock_cfg : BedrockConfig)
    (req : GenerateRequest) (gen : GenOracle) (logFail : LogOracle)
    (request_id : String) (p s : Provider × String)
    (hps : choose_models req azure_cfg bedrock_cfg = (p, s))
    (hLog : ∀ i, logFail i = none) :
    (∀ e1 r, gen p.1 p.2 = .error e1 → gen s.1 s.2 = .ok r →
      ∃ res, (run_generation app_cfg azure_cfg bedrock_cfg req gen logFail request_id).2
          = .ok res
        ∧ res.fallback_used = true
        ∧ res.attempts = [call_response app_cfg req s.1 s.2 r])
    ∧ (∀ e1 e2, gen p.1 p.2 = .error e1 → gen s.1 s.2 = .error e2 →
      (run_generation app_cfg azure_cfg bedrock_cfg req gen logFail request_id).2
        = .error ("Both providers failed. Primary: " ++ e1 ++ "; Secondary: " ++ e2)) := by
  refine ⟨?_, ?_⟩
  · intro e1 r h1 h2
    rw [run_generation_of_fallback_ok app_cfg azure_cfg bedrock_cfg req gen logFail
      request_id p s e1 r hps h1 h2 hLog]
    exact ⟨_, rfl, rfl, rfl⟩
  · intro e1 e2 h1 h2
    rw [run_generation_of_both_fail app_cfg azure_cfg bedrock_cfg req gen logFail
      request_id p s e1 e2 hps h1 h2 hLog]

/-- Witness for C6 (amended) at the concrete primary-fails fixture. -/
theorem run_generation_attempts_on_fallback_witness :
    gen_primary_fail_fix Provider.bedrock "bd-lc" = .error "boom-p"
    ∧ gen_primary_fail_fix Provider.azure "az-lc" = .ok { text := "out2", latency_ms := 7 }
    ∧ ∃ res, (run_generation default_app_config az_fix bd_fix req_fix gen_primary_fail_fix
        log_ok_fix "rid-6").2 = .ok res
      ∧ res.fallback_used = true
      ∧ res.attempts = [call_response default_app_config req_fix Provider.azure "az-lc"
          { text := "out2", latency_ms := 7 }] :=
  ⟨rfl, rfl,
    (run_generation_attempts_on_fallback default_app_config az_fix bd_fix req_fix
      gen_primary_fail_fix log_ok_fix "rid-6" (Provider.bedrock, "bd-lc")
      (Provider.azure, "az-lc") rfl (fun _ => rfl)).1 "boom-p"
      { text := "out2", latency_ms := 7 } rfl rfl⟩

/-- Counterexample for C4 as stated: with request logging disabled
(`enable_request_logging = false`), a run makes one provider attempt (the
returned attempts list has one entry) yet appends zero usage records. -/
theorem run_generation_disabled_logging_counterexample :
    (run_generation app_no_log_fix az_fix bd_fix req_fix gen_ok_fix log_ok_fix "rid-4").1 = []
    ∧ ((run_generation app_no_log_fix az_fix bd_fix req_fix gen_ok_fix log_ok_fix
        "rid-4").2.toOption.map (fun res => res.attempts.length)) = some 1 :=
  ⟨rfl, rfl⟩

/-- C4 (amended): when request logging is enabled and every usage-sink
write succeeds, each provider attempt appends exactly one usage record (one
on primary success, two when the primary fails), every appended record and
the returned result carry the run's request identifier, and when both
providers fail the appended records are exactly the two failure records. -/
theorem run_generation_records
    (app_cfg : AppConfig) (azure_cfg : AzureConfig) (bedrock_cfg : BedrockConfig)
    (req : GenerateRequest) (gen : GenOracle) (logFail : LogOracle)
    (request_id : String) (p s : Provider × String)
    (hps : choose_models req azure_cfg bedrock_cfg = (p, s))
    (hE : app_cfg.enable_request_logging = true)
    (hLog : ∀ i, logFail i = none) :
    (∀ rec ∈ (run_generation app_cfg azure_cfg bedrock_cfg req gen logFail request_id).1,
      rec.request_id = request_id)
    ∧ (∀ res, (run_generation app_cfg azure_cfg bedrock_cfg req gen logFail request_id).2
        = .ok res → res.request_id = request_id)
    ∧ (∀ r, gen p.1 p.2 = .ok r →
        (run_generation app_cfg azure_cfg bedrock_cfg req gen logFail request_id).1.length = 1)
    ∧ (∀ e1, gen p.1 p.2 = .error e1 →
        (run_generation app_cfg azure_cfg bedrock_cfg req gen logFail request_id).1.length = 2)
    ∧ (∀ e1 e2, gen p.1 p.2 = .error e1 → gen s.1 s.2 = .error e2 →
        (run_generation app_cfg azure_cfg bedrock_cfg req gen logFail request_id).1
          = [failure_record request_id req p.1 p.2 e1,
             failure_record request_id req s.1 s.2 e2]) := by
  refine ⟨?_, ?_, ?_, ?_, ?_⟩
  · intro rec hrec
    cases h1 : gen p.1 p.2 with
    | ok r =>
      rw [run_generation_of_primary_ok app_cfg azure_cfg bedrock_cfg req gen logFail
        request_id p s r hps h1 (hLog 0)] at hrec
      simp [hE, success_record] at hrec
      rw [hrec]
    | error e1 =>
      cases h2 : gen s.1 s.2 with
      | ok r =>
        rw [run_generation_of_fallback_ok app_cfg azure_cfg bedrock_cfg req gen logFail
          request_id p s e1 r hps h1 h2 hLog] at hrec
        simp [hE, success_record, failure_record] at hrec
        rcases hrec with h | h <;> rw [h]
      | error e2 =>
        rw [run_generation_of_both_fail app_cfg azure_cfg bedrock_cfg req gen logFail
          request_id p s e1 e2 hps h1 h2 hLog] at hrec
        simp [hE, failure_record] at hrec
        rcases hrec with h | h <;> rw [h]
  · intro res hres
    cases h1 : gen p.1 p.2 with
    | ok r =>
      rw [run_generation_of_primary_ok app_cfg azure_cfg bedrock_cfg req gen logFail
        request_id p s r hps h1 (hLog 0)] at hres
      simp only [Except.ok.injEq] at hres
      subst hres
      rfl
    | error e1 =>
      cases h2 : gen s.1 s.2 with
      | ok r =>
        rw [run_generation_of_fallback_ok app_cfg azure_cfg bedrock_cfg req gen logFail
          request_id p s e1 r hps h1 h2 hLog] at hres
        simp only [Except.ok.injEq] at hres
        subst hres
        rfl
      | error e2 =>
        rw [run_generation_of_both_fail app_cfg azure_cfg bedrock_cfg req gen logFail
          request_id p s e1 e2 hps h1 h2 hLog] at hres
        exact absurd hres (by simp)
  · intro r h1
    rw [run_generation_of_primary_ok app_cfg azure_cfg bedrock_cfg req gen logFail
      request_id p s r hps h1 (hLog 0)]
    simp [hE]
  · intro e1 h1
    cases h2 : gen s.1 s.2 with
    | ok r =>
      rw [run_generation_of_fallback_ok app_cfg azure_cfg bedrock_cfg req gen logFail
        request_id p s e1 r hps h1 h2 hLog]
      simp [hE]
    | error e2 =>
      rw [run_generation_of_both_fail app_cfg azure_cfg bedrock_cfg req gen logFail
        request_id p s e1 e2 hps h1 h2 hLog]
      simp [hE]
  · intro e1 e2 h1 h2
    rw [run_generation_of_both_fail app_cfg azure_cfg bedrock_cfg req gen logFail
      request_id p s e1 e2 hps h1 h2 hLog]
    simp [hE]

/-- Witness for C4 (amended): both providers fail; exactly the two failure
records, carrying the run's request id, are appended. -/
theorem run_generation_records_witness :
    default_app_config.enable_request_logging = true
    ∧ (run_generation default_app_config az_fix bd_fix req_fix gen_both_fail_fix log_ok_fix
        "rid-7").1
      = [failure_record "rid-7" req_fix Provider.bedrock "bd-lc" "boom-p",
         failure_record "rid-7" req_fix Provider.azure "az-lc" "boom-s"] :=
  ⟨rfl,
    (run_generation_records default_app_config az_fix bd_fix req_fix gen_both_fail_fix
      log_ok_fix "rid-7" (Provider.bedrock, "bd-lc") (Provider.azure, "az-lc") rfl rfl
      (fun _ => rfl)).2.2.2.2 "boom-p" "boom-s" rfl rfl⟩

/-- C2: evaluation of the code at the claim's failing inputs. Both provider
invocations succeed, yet (1) with a usage sink that always raises, the run
raises the sink's error instead of returning the successful generation,
and (2) with a sink that raises only on the run's first write, the
successful primary generation is discarded: the run falls back, returns the
secondary's response with `fallback_used = true`, and records the primary
attempt as a failure. The spec (§4.2, §9) flags this propagation as a defect
of the reference code, so the claim is right and the code wrong. -/
theorem run_generation_logging_failure_not_isolated :
    gen_ok_fix (choose_models req_fix az_fix bd_fix).1.1
        (choose_models req_fix az_fix bd_fix).1.2 = .ok { text := "out!", latency_ms := 42 }
    ∧ gen_ok_fix (choose_models req_fix az_fix bd_fix).2.1
        (choose_models req_fix az_fix bd_fix).2.2 = .ok { text := "out!", latency_ms := 42 }
    ∧ (run_generation default_app_config az_fix bd_fix req_fix gen_ok_fix log_always_fail_fix
        "rid-2").2 = .error "usage sink unavailable"
    ∧ ((run_generation default_app_config az_fix bd_fix req_fix gen_ok_fix log_first_fail_fix
        "rid-5").2.toOption.map (fun res => (res.fallback_used, res.chosen_provider)))
      = some (true, Provider.azure)
    ∧ ((run_generation default_app_config az_fix bd_fix req_fix gen_ok_fix log_first_fail_fix
        "rid-5").1.map (fun rec => (rec.provider, rec.success)))
      = [(Provider.bedrock, false), (Provider.azure, true)] :=
  ⟨rfl, rfl, rfl, rfl, rfl⟩

end Gateway
